import Mathlib

/-!
Verification of the fault-handler subsystem exercised by
`Lib/test/test_faulthandler.py`.

The repository ships only the test suite for the fault handler; the
handler implementation itself lives outside the provided sources.  The
definitions below are therefore modelled from the specification
(`spec.md`), with every output format cross-checked against the exact
strings the test suite demands (`check_error`, `check_dump_traceback`,
`expected_traceback`, `test_truncate`, `check_register`,
`check_stderr_none`).
-/

namespace FaultHandler

/-! ## StackFormatter: frames and line rendering (spec section 4.2, section 3) -/

/-- Modelled from the spec: the fixed maximum function-name length used by
the StackFormatter ("function names longer than a fixed maximum (e.g. 500)
are truncated with a trailing ellipsis"); the test suite pins the value to
500 (`test_truncate`, `maxlen = 500`). -/
def MAX_FUNC_NAME_LEN : Nat := 500

/-- Modelled from the spec: a captured call frame
(`Frame: function_name, source_location, line_number`). -/
structure Frame where
  function_name : String
  source_location : String
  line_number : Nat
deriving Repr, DecidableEq

/-- Modelled from the spec: name-length truncation performed by the
StackFormatter; names longer than `MAX_FUNC_NAME_LEN` are cut to that
length and get the suffix `...` appended. -/
def truncateFunctionName (name : String) : String :=
  if MAX_FUNC_NAME_LEN < name.length then
    (String.mk (name.data.take MAX_FUNC_NAME_LEN)) ++ "..."
  else
    name

/-- Modelled from the spec: one formatted frame line,
`  File "<source>", line <n> in <function>` (spec section 4.2 and the
expected lines of `check_dump_traceback`). -/
def formatFrameLine (f : Frame) : String :=
  "  File \"" ++ f.source_location ++ "\", line " ++ toString f.line_number
    ++ " in " ++ truncateFunctionName f.function_name

/-- Lowercase hexadecimal rendering of a thread identifier, as in the
`0x[0-9a-f]+` patterns matched by the tests. -/
def toHexString (n : Nat) : String :=
  String.mk (Nat.toDigits 16 n)

/-- Modelled from the spec: header used for a single-thread dump
(`Stack (most recent call first):`). -/
def stackHeaderSingle : String := "Stack (most recent call first):"

/-- Modelled from the spec: header used for the faulting/current thread in
an all-threads dump. -/
def currentThreadHeader (tid : Nat) : String :=
  "Current thread 0x" ++ toHexString tid ++ " (most recent call first):"

/-- Modelled from the spec: header used for a non-current thread. -/
def otherThreadHeader (tid : Nat) : String :=
  "Thread 0x" ++ toHexString tid ++ " (most recent call first):"

/-- Modelled from the spec: a captured stack snapshot, innermost frame
first, tagged with a thread identifier and an is-current flag. -/
structure StackSnapshot where
  thread_id : Nat
  is_current : Bool
  frames : List Frame
deriving Repr, DecidableEq

/-- Modelled from the spec: the StackFormatter output for a single-thread
dump, one header line plus one line per frame, innermost first. -/
def formatSingleThread (snap : StackSnapshot) : List String :=
  stackHeaderSingle :: snap.frames.map formatFrameLine

/-- Modelled from the spec: the per-thread block of an all-threads dump;
the current thread gets the `Current thread` header, others `Thread`. -/
def formatThreadBlock (snap : StackSnapshot) : List String :=
  (if snap.is_current then currentThreadHeader snap.thread_id
   else otherThreadHeader snap.thread_id)
    :: snap.frames.map formatFrameLine

/-! ## Duration rendering for the watchdog header -/

/-- Left-pad the decimal rendering of `n` with zeros up to `width`. -/
def padZeros (width : Nat) (n : Nat) : String :=
  let s := toString n
  String.mk (List.replicate (width - s.length) '0') ++ s

/-- Modelled from the spec: the `<duration>` text of the watchdog header
`Timeout (<duration>)!`, rendered from microseconds as
`H:MM:SS.microseconds`; the tests expect it to match
`str(datetime.timedelta(seconds=T))`, e.g. `0:00:00.500000` for 0.5 s. -/
def formatDurationUs (us : Nat) : String :=
  let sec := us / 1000000
  let rest := us % 1000000
  toString (sec / 3600) ++ ":" ++ padZeros 2 ((sec % 3600) / 60) ++ ":"
    ++ padZeros 2 (sec % 60) ++ "." ++ padZeros 6 rest

/-- Modelled from the spec: the watchdog timeout header line. -/
def timeoutHeader (interval_us : Nat) : String :=
  "Timeout (" ++ formatDurationUs interval_us ++ ")!"

/-- Modelled from the spec: one watchdog dump: the timeout header, then a
`Thread 0x<hex> (most recent call first):` header, then the frames
(the `check_dump_traceback_later` regex). -/
def timeoutDump (interval_us : Nat) (snap : StackSnapshot) : List String :=
  timeoutHeader interval_us :: otherThreadHeader snap.thread_id
    :: snap.frames.map formatFrameLine

/-! ## Fatal fault kinds (spec section 4.1) -/

/-- Modelled from the spec: the covered fatal conditions. -/
inductive FaultKind where
  | segfault
  | busError
  | illegalInstr
  | floatingPointExc
  | aborted
deriving Repr, DecidableEq

/-- Fault-kind text of the fatal header, exactly as the tests expect it
(`test_sigsegv`, `test_sigbus`, `test_sigill`, `test_sigfpe`,
`test_sigabrt`). -/
def FaultKind.description : FaultKind → String
  | .segfault => "Segmentation fault"
  | .busError => "Bus error"
  | .illegalInstr => "Illegal instruction"
  | .floatingPointExc => "Floating-point exception"
  | .aborted => "Aborted"

/-- POSIX signal number of each covered fatal condition. -/
def FaultKind.signum : FaultKind → Nat
  | .segfault => 11
  | .busError => 7
  | .illegalInstr => 4
  | .floatingPointExc => 8
  | .aborted => 6

/-- Modelled from the spec: the full output of the fault handler on a
covered fatal condition for a single-threaded process: one
`Fatal Python error: <kind>` header line, a blank separator line, the
stack header, an optional `  Garbage-collecting` marker when the fault
hit during cycle collection, then the frame lines (layout taken from the
regex built in `check_error`). -/
def fatalFaultLines (kind : FaultKind) (duringGC : Bool) (all_threads : Bool)
    (current : StackSnapshot) : List String :=
  ("Fatal Python error: " ++ kind.description) :: "" ::
    (if all_threads then currentThreadHeader current.thread_id
     else stackHeaderSingle) ::
    ((if duringGC then ["  Garbage-collecting"] else [])
      ++ current.frames.map formatFrameLine)

/-! ## Process status -/

/-- Observable fate of the child process in a test scenario: still
running (exit code unaffected), or terminated with the given code; a
signal death is reported as the negated signal number, as
`subprocess`'s `wait()` reports it to `get_output`. -/
inductive ProcessStatus where
  | running
  | exited (code : Int)
deriving Repr, DecidableEq

/-! ## UserSignalRegistry (spec section 4.5) -/

/-- Modelled from the spec: the handler installed for a user signal.  A
`faultDump` handler is the one `register` installs; it records the
`all_threads`/`chain` options and an opaque capture of whatever handler
was installed immediately before registration. -/
inductive Handler where
  | defaultFatal
  | sigIgnore
  | callback (id : Nat)
  | faultDump (all_threads : Bool) (chain : Bool) (previous : Handler)
deriving Repr, DecidableEq

/-- Whether a faulthandler registration is currently installed. -/
def Handler.isRegistered : Handler → Bool
  | .faultDump _ _ _ => true
  | _ => false

/-- Modelled from the spec: `register(signum, all_threads, chain)`
replaces the installed handler with a dump handler that captures the
previous one. -/
def register (all_threads chain : Bool) (installed : Handler) : Handler :=
  .faultDump all_threads chain installed

/-- Modelled from the spec: `unregister(signum)` restores the handler
recorded at registration time and returns whether a registration
existed; with no registration it changes nothing and returns false. -/
def unregister : Handler → Bool × Handler
  | .faultDump _ _ previous => (true, previous)
  | h => (false, h)

/-- Modelled from the spec: the observable result of delivering a signal
to a handler: the lines written to the sink, the user callbacks that ran
(in order), and the process status afterwards. -/
structure DeliveryResult where
  output : List String
  callbacks_run : List Nat
  status : ProcessStatus
deriving Repr, DecidableEq

/-- Modelled from the spec: delivering `signum` to the installed handler.
The default disposition kills the process (signal-death status); an
ignored signal and a user callback leave it running; a registered dump
handler writes the dump (same stack sequence as a fatal dump, but no
fault header) and does NOT re-raise — if `chain` is set it then invokes
the captured previous handler, otherwise the previous handler is
suppressed. -/
def deliverSignal (signum : Nat) (snap : StackSnapshot) :
    Handler → DeliveryResult
  | .defaultFatal => ⟨[], [], .exited (-(signum : Int))⟩
  | .sigIgnore => ⟨[], [], .running⟩
  | .callback id => ⟨[], [id], .running⟩
  | .faultDump all_threads chain previous =>
      let dump := if all_threads then formatThreadBlock snap
                  else formatSingleThread snap
      if chain then
        let r := deliverSignal signum snap previous
        ⟨dump ++ r.output, r.callbacks_run, r.status⟩
      else
        ⟨dump, [], .running⟩

/-! ## Subsystem state machine (spec sections 4.1, 4.4, 7) -/

/-- Modelled from the spec: the armed watchdog configuration
(`WatchdogState` without the cancel flag, which the event machine keeps
implicit by dropping the configuration on cancellation). -/
structure WatchdogConfig where
  interval_us : Nat
  repeats : Bool
  exit_on_timeout : Bool
deriving Repr, DecidableEq

/-- Modelled from the spec: how many times an armed watchdog fires during
`elapsed_us` microseconds with no intervening cancellation: the timer
sleeps for the interval, dumps on wake, and re-arms only when
`repeats` is set. -/
def watchdogFireCount (cfg : WatchdogConfig) (elapsed_us : Nat) : Nat :=
  if cfg.interval_us = 0 then 0
  else if cfg.repeats then elapsed_us / cfg.interval_us
  else min 1 (elapsed_us / cfg.interval_us)

/-- Modelled from the spec: the process-wide singleton state of the
subsystem: the enabled flag of the SignalInterceptor (with its
`all_threads` option), the armed watchdog if any, and whether
`sys.stderr` is available as the default sink. -/
structure SubsystemState where
  enabled : Bool
  enable_all_threads : Bool
  watchdog : Option WatchdogConfig
  registered_signals : List Nat
  stderr_available : Bool
deriving Repr, DecidableEq

/-- The subsystem state of a fresh process: disabled, no watchdog, no
registered user signals, `sys.stderr` open. -/
def initialState : SubsystemState :=
  ⟨false, false, none, [], true⟩

/-- Modelled from the spec: the events a test scenario drives the
subsystem with.  A `none` sink argument means "use sys.stderr". -/
inductive Event where
  | enable (sink : Option Nat) (all_threads : Bool)
  | disable
  | dump_traceback (sink : Option Nat) (all_threads : Bool)
  | dump_traceback_later (interval_us : Nat) (repeats : Bool)
      (sink : Option Nat) (exit_on_timeout : Bool)
  | cancel_dump_traceback_later
  | registerSignal (signum : Nat) (sink : Option Nat)
      (all_threads chain : Bool)
  | sleep (elapsed_us : Nat)
  | fatalFault (kind : FaultKind) (duringGC : Bool)
deriving Repr, DecidableEq

/-- Result of one event step: the successor state, the lines written to
the sink, the message of a synchronously raised RuntimeError if any, and
the process status. -/
structure StepResult where
  state : SubsystemState
  output : List String
  raised : Option String
  status : ProcessStatus
deriving Repr, DecidableEq

/-- Whether the sink argument can be resolved: an explicit sink is always
usable, the default requires `sys.stderr` to be set. -/
def sinkOk (s : SubsystemState) : Option Nat → Bool
  | some _ => true
  | none => s.stderr_available

/-- Modelled from the spec: one step of the subsystem.  `enable` installs
the interceptor and `disable` removes it (idempotent); `dump_traceback`
writes an on-demand dump and leaves the process running;
`dump_traceback_later` arms the watchdog, replacing any armed one;
`cancel_dump_traceback_later` disarms it and is a silent no-op when idle;
`sleep` lets an armed watchdog fire; a covered fatal fault while enabled
writes the fatal dump and then re-raises under the default disposition,
so the process dies with the signal-death status either way.  Operations
that need a sink raise `RuntimeError: sys.stderr is None` and change
nothing when `sys.stderr` is gone and no sink was passed. -/
def step (current : StackSnapshot) (s : SubsystemState) :
    Event → StepResult
  | .enable sink all_threads =>
      if sinkOk s sink then
        ⟨{ s with enabled := true, enable_all_threads := all_threads },
          [], none, .running⟩
      else
        ⟨s, [], some "sys.stderr is None", .running⟩
  | .disable =>
      ⟨{ s with enabled := false }, [], none, .running⟩
  | .dump_traceback sink all_threads =>
      if sinkOk s sink then
        ⟨s,
          (if all_threads then formatThreadBlock current
           else formatSingleThread current),
          none, .running⟩
      else
        ⟨s, [], some "sys.stderr is None", .running⟩
  | .dump_traceback_later interval_us repeats sink exit_on_timeout =>
      if sinkOk s sink then
        ⟨{ s with watchdog := some ⟨interval_us, repeats, exit_on_timeout⟩ },
          [], none, .running⟩
      else
        ⟨s, [], some "sys.stderr is None", .running⟩
  | .cancel_dump_traceback_later =>
      ⟨{ s with watchdog := none }, [], none, .running⟩
  | .registerSignal signum sink _ _ =>
      if sinkOk s sink then
        ⟨{ s with registered_signals := signum :: s.registered_signals },
          [], none, .running⟩
      else
        ⟨s, [], some "sys.stderr is None", .running⟩
  | .sleep elapsed_us =>
      match s.watchdog with
      | none => ⟨s, [], none, .running⟩
      | some cfg =>
          let n := watchdogFireCount cfg elapsed_us
          ⟨{ s with watchdog :=
              if cfg.repeats ∨ n = 0 then some cfg else none },
            List.flatten (List.replicate n (timeoutDump cfg.interval_us current)),
            none,
            if cfg.exit_on_timeout ∧ 0 < n then .exited 1 else .running⟩
  | .fatalFault kind duringGC =>
      if s.enabled then
        ⟨s, fatalFaultLines kind duringGC s.enable_all_threads current,
          none, .exited (-(kind.signum : Int))⟩
      else
        ⟨s, [], none, .exited (-(kind.signum : Int))⟩

/-- Run a sequence of events from a state, concatenating the output and
stopping as soon as the process dies. -/
def run (current : StackSnapshot) (s : SubsystemState) :
    List Event → List String × ProcessStatus
  | [] => ([], .running)
  | e :: es =>
      let r := step current s e
      match r.status with
      | .exited c => (r.output, .exited c)
      | .running =>
          let rest := run current r.state es
          (r.output ++ rest.1, rest.2)

end FaultHandler

namespace FaultHandler

example :
    formatFrameLine ⟨"funcB", "<string>", 14⟩
      = "  File \"<string>\", line 14 in funcB" := by rfl

example : formatDurationUs 500000 = "0:00:00.500000" := by rfl

example : timeoutHeader 500000 = "Timeout (0:00:00.500000)!" := by rfl

/-- A concrete two-frame snapshot (the shape `expected_traceback` checks:
`func` at line 17 called from `<module>` at line 26) used to instantiate
the theorems below. -/
def demoSnapshot : StackSnapshot :=
  ⟨140015, true, [⟨"func", "<string>", 17⟩, ⟨"<module>", "<string>", 26⟩]⟩

/-- A state in which `enable()` has been called with default options. -/
def enabledState : SubsystemState :=
  ⟨true, false, none, [], true⟩

/-- A state in which `sys.stderr` has been set to `None`. -/
def stderrNoneState : SubsystemState :=
  ⟨false, false, none, [], false⟩

/-- The call stack of `check_dump_traceback` with the default sink:
`funcB` at line 14, `funcA` at line 17, `<module>` at line 19. -/
def dumpTracebackSnapshot : StackSnapshot :=
  ⟨0, true,
    [⟨"funcB", "<string>", 14⟩, ⟨"funcA", "<string>", 17⟩,
     ⟨"<module>", "<string>", 19⟩]⟩

/-- Arithmetic helper: a watchdog with period `T` armed for `2.5 T`
microseconds sees the interval elapse exactly twice. -/
theorem two_periods_in_two_and_a_half (T : Nat) (hT : 0 < T) :
    5 * T / 2 / T = 2 := by
  have h5 : 5 * T = T + 2 * (2 * T) := by ring
  have h1 : 5 * T / 2 = T / 2 + 2 * T := by
    rw [h5, Nat.add_mul_div_left _ _ (by norm_num : 0 < 2)]
  have hlt : T / 2 < T := Nat.div_lt_self hT (by norm_num)
  have h2 : T / 2 + 2 * T = T / 2 + T * 2 := by ring
  rw [h1, h2, Nat.add_mul_div_left _ _ hT, Nat.div_eq_of_lt hlt]

/-- C1: while the handler is enabled, every covered fatal condition
(segmentation fault, bus error, illegal instruction, floating-point
exception, abort) produces output that begins with the one-line
`Fatal Python error: <kind>` header followed by the stack trace, and the
process terminates with a non-zero signal-death exit status — the handler
never suppresses the crash. -/
theorem C1_fatal_fault_header_trace_and_nonzero_exit
    (current : StackSnapshot) (s : SubsystemState)
    (kind : FaultKind) (duringGC : Bool)
    (henabled : s.enabled = true) :
    (step current s (.fatalFault kind duringGC)).output
        = ("Fatal Python error: " ++ kind.description) :: "" ::
          (if s.enable_all_threads then currentThreadHeader current.thread_id
           else stackHeaderSingle) ::
          ((if duringGC then ["  Garbage-collecting"] else [])
            ++ current.frames.map formatFrameLine) ∧
    (step current s (.fatalFault kind duringGC)).status
        = .exited (-(kind.signum : Int)) ∧
    -(kind.signum : Int) ≠ 0 := by
  refine ⟨?_, ?_, ?_⟩
  · simp [step, henabled, fatalFaultLines]
  · simp [step, henabled]
  · cases kind <;> decide

/-- C1 witness: a segmentation fault in the enabled state. -/
theorem C1_fatal_fault_witness :
    enabledState.enabled = true ∧
    ((step demoSnapshot enabledState (.fatalFault .segfault false)).output
        = ("Fatal Python error: " ++ FaultKind.description .segfault) :: "" ::
          (if enabledState.enable_all_threads
           then currentThreadHeader demoSnapshot.thread_id
           else stackHeaderSingle) ::
          ((if false then ["  Garbage-collecting"] else [])
            ++ demoSnapshot.frames.map formatFrameLine) ∧
     (step demoSnapshot enabledState (.fatalFault .segfault false)).status
        = .exited (-(FaultKind.signum .segfault : Int)) ∧
     -(FaultKind.signum .segfault : Int) ≠ 0) :=
  ⟨rfl,
   C1_fatal_fault_header_trace_and_nonzero_exit demoSnapshot enabledState
     .segfault false rfl⟩

/-- C2: a single-threaded on-demand `dump_traceback(all_threads=False)`
emits exactly one `Stack (most recent call first):` header line followed
by one `  File "<source>", line <N> in <function>` line per frame,
innermost first, changes no state, and leaves the process running (exit
code 0); on the concrete stack of `check_dump_traceback` the output
matches the test's expected list verbatim. -/
theorem C2_dump_traceback_exact_lines
    (current : StackSnapshot) (s : SubsystemState) (fd : Nat) :
    (step current s (.dump_traceback (some fd) false)).output
        = "Stack (most recent call first):"
            :: current.frames.map formatFrameLine ∧
    (step current s (.dump_traceback (some fd) false)).status = .running ∧
    (step current s (.dump_traceback (some fd) false)).state = s ∧
    (step dumpTracebackSnapshot initialState (.dump_traceback none false)).output
        = ["Stack (most recent call first):",
           "  File \"<string>\", line 14 in funcB",
           "  File \"<string>\", line 17 in funcA",
           "  File \"<string>\", line 19 in <module>"] ∧
    (step dumpTracebackSnapshot initialState
        (.dump_traceback none false)).status = .running := by
  refine ⟨rfl, rfl, rfl, by decide, rfl⟩

/-- C3: arming the watchdog with period `T` and no cancellation produces,
after `2.5 T` elapses, exactly one timeout dump when `repeat=false` and
exactly two when `repeat=true`; each dump starts with the
`Timeout (<duration>)!` header followed by the
`Thread 0x<hex> (most recent call first):` header; the process stays
running, so it exits normally with code 0. -/
theorem C3_watchdog_dump_counts
    (current : StackSnapshot) (s : SubsystemState) (T : Nat)
    (hT : 0 < T) (hstderr : s.stderr_available = true) :
    run current s [.dump_traceback_later T false none false,
        .sleep (5 * T / 2)]
      = (timeoutDump T current, .running) ∧
    run current s [.dump_traceback_later T true none false,
        .sleep (5 * T / 2)]
      = (timeoutDump T current ++ timeoutDump T current, .running) ∧
    timeoutDump T current
      = ("Timeout (" ++ formatDurationUs T ++ ")!")
          :: ("Thread 0x" ++ toHexString current.thread_id
                ++ " (most recent call first):")
          :: current.frames.map formatFrameLine := by
  have h2 : 5 * T / 2 / T = 2 := two_periods_in_two_and_a_half T hT
  refine ⟨?_, ?_, rfl⟩
  · simp [run, step, sinkOk, hstderr, watchdogFireCount, hT.ne', h2]
  · simp [run, step, sinkOk, hstderr, watchdogFireCount, hT.ne', h2]

/-- C3 witness: watchdog period 2 microseconds, sleeping 5. -/
theorem C3_watchdog_witness :
    (0 < 2 ∧ initialState.stderr_available = true) ∧
    (run demoSnapshot initialState [.dump_traceback_later 2 false none false,
        .sleep (5 * 2 / 2)]
      = (timeoutDump 2 demoSnapshot, .running) ∧
     run demoSnapshot initialState [.dump_traceback_later 2 true none false,
        .sleep (5 * 2 / 2)]
      = (timeoutDump 2 demoSnapshot ++ timeoutDump 2 demoSnapshot,
         .running) ∧
     timeoutDump 2 demoSnapshot
      = ("Timeout (" ++ formatDurationUs 2 ++ ")!")
          :: ("Thread 0x" ++ toHexString demoSnapshot.thread_id
                ++ " (most recent call first):")
          :: demoSnapshot.frames.map formatFrameLine) :=
  ⟨⟨by decide, rfl⟩,
   C3_watchdog_dump_counts demoSnapshot initialState 2 (by decide) rfl⟩

/-- C4: cancelling the watchdog before its interval elapses yields zero
dumps and the process keeps running; cancelling when no watchdog is armed
is a no-op: no output, no error raised, state unchanged, still
running. -/
theorem C4_cancel_zero_dumps_and_idle_noop
    (current : StackSnapshot) (s : SubsystemState) (T e : Nat)
    (rep exitOn : Bool) (fd : Nat) :
    run current s [.dump_traceback_later T rep (some fd) exitOn,
        .cancel_dump_traceback_later, .sleep e]
      = ([], .running) ∧
    (s.watchdog = none →
      step current s .cancel_dump_traceback_later
        = ⟨s, [], none, .running⟩) := by
  constructor
  · simp [run, step, sinkOk]
  · intro h
    obtain ⟨en, eat, wd, rs, sa⟩ := s
    cases h
    rfl

/-- C4 witness: cancel right after arming, and cancel in the idle initial
state. -/
theorem C4_cancel_witness :
    initialState.watchdog = none ∧
    run demoSnapshot initialState
        [.dump_traceback_later 500000 false (some 2) false,
         .cancel_dump_traceback_later, .sleep 1250000]
      = ([], .running) ∧
    step demoSnapshot initialState .cancel_dump_traceback_later
      = ⟨initialState, [], none, .running⟩ :=
  ⟨rfl,
   (C4_cancel_zero_dumps_and_idle_noop demoSnapshot initialState
      500000 1250000 false false 2).1,
   (C4_cancel_zero_dumps_and_idle_noop demoSnapshot initialState
      500000 1250000 false false 2).2 rfl⟩

/-- C5: after `register(signum, chain=true)` over a previously-installed
user callback, delivering `signum` writes the dump AND runs the previous
handler exactly once, without re-raising, and the process keeps running
(exit code 0); with `chain=false` the previous handler is suppressed
(it never runs). -/
theorem C5_register_chain_runs_previous_once
    (signum : Nat) (snap : StackSnapshot) (id : Nat) (all_threads : Bool) :
    deliverSignal signum snap (register all_threads true (.callback id))
      = ⟨(if all_threads then formatThreadBlock snap
          else formatSingleThread snap),
         [id], .running⟩ ∧
    deliverSignal signum snap (register all_threads false (.callback id))
      = ⟨(if all_threads then formatThreadBlock snap
          else formatSingleThread snap),
         [], .running⟩ := by
  constructor <;> simp [deliverSignal, register]

/-- C6: `unregister` after `register` reports that a registration existed
and restores the handler captured at registration time, so a subsequent
delivery behaves exactly like the prior handler — in particular, a
restored default-fatal disposition produces no dump and kills the
process with a non-zero signal-death status; with no registration
installed, `unregister` reports false and changes nothing. -/
theorem C6_unregister_restores_previous
    (h : Handler) (snap : StackSnapshot) (signum : Nat)
    (all_threads chain : Bool) (hpos : 0 < signum) :
    unregister (register all_threads chain h) = (true, h) ∧
    deliverSignal signum snap (unregister (register all_threads chain h)).2
      = deliverSignal signum snap h ∧
    (h.isRegistered = false → unregister h = (false, h)) ∧
    deliverSignal signum snap .defaultFatal
      = ⟨[], [], .exited (-(signum : Int))⟩ ∧
    -(signum : Int) ≠ 0 := by
  refine ⟨rfl, rfl, ?_, rfl, ?_⟩
  · intro hreg
    cases h <;> simp_all [Handler.isRegistered, unregister]
  · omega

/-- C6 witness: SIGUSR1 (signal 10) with the default disposition as the
prior handler. -/
theorem C6_unregister_witness :
    (0 < 10 ∧ Handler.isRegistered .defaultFatal = false) ∧
    unregister (register false true .defaultFatal) = (true, .defaultFatal) ∧
    unregister .defaultFatal = (false, .defaultFatal) ∧
    deliverSignal 10 demoSnapshot .defaultFatal
      = ⟨[], [], .exited (-(10 : Int))⟩ :=
  ⟨⟨by decide, rfl⟩,
   (C6_unregister_restores_previous .defaultFatal demoSnapshot 10 false true
      (by decide)).1,
   (C6_unregister_restores_previous .defaultFatal demoSnapshot 10 false true
      (by decide)).2.2.1 rfl,
   (C6_unregister_restores_previous .defaultFatal demoSnapshot 10 false true
      (by decide)).2.2.2.1⟩

/-- C7: `disable()` after `enable()` followed by a fatal signal produces
no fault-handler output at all (in particular no `Fatal Python error`
line), while the fault still kills the process through the default path
with a non-zero exit status. -/
theorem C7_disable_suppresses_output_not_crash
    (current : StackSnapshot) (s : SubsystemState) (kind : FaultKind)
    (duringGC all_threads : Bool) (fd : Nat) :
    run current s [.enable (some fd) all_threads, .disable,
        .fatalFault kind duringGC]
      = ([], .exited (-(kind.signum : Int))) ∧
    -(kind.signum : Int) ≠ 0 := by
  constructor
  · simp [run, step, sinkOk]
  · cases kind <;> decide

/-- C8: function names longer than the 500-character threshold are shown
in the frame line truncated to exactly the threshold length plus the
`...` ellipsis (503 characters total), the rendered name never exceeds
that combined length, and names at or below the threshold are emitted
unchanged; the 550-character name of `test_truncate` renders exactly as
the test expects. -/
theorem C8_function_name_truncated_at_threshold
    (name src : String) (ln : Nat) :
    (MAX_FUNC_NAME_LEN < name.length →
      truncateFunctionName name
          = String.mk (name.data.take MAX_FUNC_NAME_LEN) ++ "..." ∧
      (truncateFunctionName name).length = MAX_FUNC_NAME_LEN + 3) ∧
    (name.length ≤ MAX_FUNC_NAME_LEN → truncateFunctionName name = name) ∧
    (truncateFunctionName name).length ≤ MAX_FUNC_NAME_LEN + 3 ∧
    formatFrameLine ⟨name, src, ln⟩
      = "  File \"" ++ src ++ "\", line " ++ toString ln ++ " in "
          ++ truncateFunctionName name ∧
    truncateFunctionName (String.mk (List.replicate 550 'x'))
      = String.mk (List.replicate 500 'x') ++ "..." := by
  have hlen : ∀ l : List Char, (String.mk l).length = l.length := by
    intro l; rfl
  have happ : ∀ a b : String, (a ++ b).length = a.length + b.length := by
    intro a b
    show (a.data ++ b.data).length = a.data.length + b.data.length
    exact List.length_append a.data b.data
  have hd : name.length = name.data.length := rfl
  have h3 : ("..." : String).length = 3 := rfl
  have htrunc : MAX_FUNC_NAME_LEN < name.length →
      (truncateFunctionName name).length = MAX_FUNC_NAME_LEN + 3 := by
    intro hlong
    unfold truncateFunctionName
    rw [if_pos hlong, happ, hlen, List.length_take, h3]
    omega
  have hkeep : ¬ MAX_FUNC_NAME_LEN < name.length →
      truncateFunctionName name = name := by
    intro hshort
    unfold truncateFunctionName
    rw [if_neg hshort]
  refine ⟨?_, ?_, ?_, rfl, ?_⟩
  · intro hlong
    refine ⟨?_, htrunc hlong⟩
    unfold truncateFunctionName
    rw [if_pos hlong]
  · intro hshort
    exact hkeep (by omega)
  · by_cases hlong : MAX_FUNC_NAME_LEN < name.length
    · rw [htrunc hlong]
    · rw [hkeep hlong]
      omega
  · have hx : (String.mk (List.replicate 550 'x')).data.take MAX_FUNC_NAME_LEN
        = List.replicate 500 'x' := by
      show (List.replicate 550 'x').take MAX_FUNC_NAME_LEN
        = List.replicate 500 'x'
      rw [List.take_replicate]
      norm_num [MAX_FUNC_NAME_LEN]
    unfold truncateFunctionName
    rw [if_pos (by rw [hlen, List.length_replicate]
                   norm_num [MAX_FUNC_NAME_LEN]), hx]

/-- C8 witness: the 550-character name of `test_truncate` is truncated to
503 characters, while the short name `funcB` is kept unchanged. -/
theorem C8_truncation_witness :
    MAX_FUNC_NAME_LEN < (String.mk (List.replicate 550 'x')).length ∧
    (truncateFunctionName (String.mk (List.replicate 550 'x'))).length
      = MAX_FUNC_NAME_LEN + 3 ∧
    ("funcB" : String).length ≤ MAX_FUNC_NAME_LEN ∧
    truncateFunctionName "funcB" = "funcB" := by
  have hlong :
      MAX_FUNC_NAME_LEN < (String.mk (List.replicate 550 'x')).length := by
    show MAX_FUNC_NAME_LEN < (List.replicate 550 'x').length
    rw [List.length_replicate]
    norm_num [MAX_FUNC_NAME_LEN]
  have hshort : ("funcB" : String).length ≤ MAX_FUNC_NAME_LEN := by decide
  refine ⟨hlong, ?_, hshort, ?_⟩
  · exact ((C8_function_name_truncated_at_threshold
      (String.mk (List.replicate 550 'x')) "<string>" 4).1 hlong).2
  · exact (C8_function_name_truncated_at_threshold
      "funcB" "<string>" 4).2.1 hshort

/-- C9: when a covered fatal condition strikes while garbage/cycle
collection is running, the dump carries a `  Garbage-collecting` marker
line sitting after the fault header (at index 3, just below the stack
header) and before all the frame lines, matching the order `check_error`
demands. -/
theorem C9_gc_marker_between_header_and_frames
    (current : StackSnapshot) (s : SubsystemState) (kind : FaultKind)
    (henabled : s.enabled = true) :
    (step current s (.fatalFault kind true)).output
      = ("Fatal Python error: " ++ kind.description) :: "" ::
        (if s.enable_all_threads then currentThreadHeader current.thread_id
         else stackHeaderSingle) ::
        "  Garbage-collecting" :: current.frames.map formatFrameLine := by
  simp [step, henabled, fatalFaultLines]

/-- C9 witness: a segmentation fault during collection in the enabled
state. -/
theorem C9_gc_marker_witness :
    enabledState.enabled = true ∧
    (step demoSnapshot enabledState (.fatalFault .segfault true)).output
      = ("Fatal Python error: " ++ FaultKind.description .segfault) :: "" ::
        (if enabledState.enable_all_threads
         then currentThreadHeader demoSnapshot.thread_id
         else stackHeaderSingle) ::
        "  Garbage-collecting" :: demoSnapshot.frames.map formatFrameLine :=
  ⟨rfl, C9_gc_marker_between_header_and_frames demoSnapshot enabledState
    .segfault rfl⟩

/-- C10: with `sys.stderr` set to `None` and no explicit sink, each of
`enable()`, `dump_traceback()`, `dump_traceback_later()` and `register()`
raises RuntimeError with the exact message `sys.stderr is None`, writes
nothing, leaves the subsystem state unchanged, and the process keeps
running. -/
theorem C10_stderr_none_raises_runtime_error
    (current : StackSnapshot) (s : SubsystemState)
    (hstderr : s.stderr_available = false)
    (all_threads rep exitOn chain : Bool) (T signum : Nat) :
    step current s (.enable none all_threads)
      = ⟨s, [], some "sys.stderr is None", .running⟩ ∧
    step current s (.dump_traceback none all_threads)
      = ⟨s, [], some "sys.stderr is None", .running⟩ ∧
    step current s (.dump_traceback_later T rep none exitOn)
      = ⟨s, [], some "sys.stderr is None", .running⟩ ∧
    step current s (.registerSignal signum none all_threads chain)
      = ⟨s, [], some "sys.stderr is None", .running⟩ := by
  refine ⟨?_, ?_, ?_, ?_⟩ <;> simp [step, sinkOk, hstderr]

/-- C10 witness: the four operations in the state where `sys.stderr` is
`None`, for SIGUSR1 and a 1 ms watchdog. -/
theorem C10_stderr_none_witness :
    stderrNoneState.stderr_available = false ∧
    (step demoSnapshot stderrNoneState (.enable none false)
       = ⟨stderrNoneState, [], some "sys.stderr is None", .running⟩ ∧
     step demoSnapshot stderrNoneState (.dump_traceback none false)
       = ⟨stderrNoneState, [], some "sys.stderr is None", .running⟩ ∧
     step demoSnapshot stderrNoneState (.dump_traceback_later 1000 false none false)
       = ⟨stderrNoneState, [], some "sys.stderr is None", .running⟩ ∧
     step demoSnapshot stderrNoneState (.registerSignal 10 none false false)
       = ⟨stderrNoneState, [], some "sys.stderr is None", .running⟩) :=
  ⟨rfl, C10_stderr_none_raises_runtime_error demoSnapshot stderrNoneState
    rfl false false false false 1000 10⟩

end FaultHandler
